import Mathlib

/-!
# Verification of the WhisperX pipeline engine

A shallow embedding of the staged, checkpointed transcription pipeline of
`src/core/pipeline.py` (and the matching logic in `src/main.py` /
`src/format_transcript.py`), together with proofs of the spec's claims about
cache loading, stage resolution, export formatting, checkpoint saving,
cache clearing, progress reporting, and pre-flight error handling.

The external model collaborators (whisperx transcribe / align /
assign_word_speakers) are opaque in the source and are modelled as oracle
functions.  Timestamps are modelled as natural-number seconds: the claims
under verification concern field presence, ordering and string formatting,
none of which depend on fractional time values.
-/

namespace WhisperX

/-- One entry of a result document's `segments` list.  `speaker` models the
presence/value of the `"speaker"` key, `hasWords` the presence of the
`"words"` key (word-level timing), `text` the `"text"` value, and
`start`/`stop` the `"start"`/`"end"` timestamps in whole seconds. -/
structure Segment where
  speaker : Option String
  start : Nat
  stop : Nat
  text : String
  hasWords : Bool
deriving DecidableEq

/-- A JSON-like result document: the `segments` list (absent key modelled as
`[]`, matching `result.get("segments", [])`) plus the detected `language`. -/
structure Document where
  segments : List Segment
  language : Option String
deriving DecidableEq

/-- Drop leading and trailing whitespace from a character list. -/
def stripList (l : List Char) : List Char :=
  ((l.dropWhile Char.isWhitespace).reverse.dropWhile Char.isWhitespace).reverse

/-- Python's `str.strip()` (as used on segment text and on the HF token):
remove leading and trailing whitespace. -/
def pyStrip (s : String) : String :=
  String.mk (stripList s.data)

/-- `format_time` from `src/core/pipeline.py` lines 32-37: seconds to
`HH:MM:SS` with each component zero-padded to two digits (Python `{:02}`). -/
def pad2 (n : Nat) : String :=
  if n < 10 then "0" ++ toString n else toString n

/-- `format_time(seconds)`: `hours = seconds // 3600`,
`minutes = (seconds % 3600) // 60`, `secs = seconds % 60`. -/
def format_time (seconds : Nat) : String :=
  pad2 (seconds / 3600) ++ ":" ++ pad2 ((seconds % 3600) / 60) ++ ":" ++ pad2 (seconds % 60)

/-- The per-segment loop body of `export_transcript`
(`src/core/pipeline.py` lines 59-70): skip a segment whose stripped text is
empty, otherwise emit `[start - end] SPEAKER: text` with the speaker key
defaulting to `SPEAKER_??`. -/
def export_lines : List Segment → List String
  | [] => []
  | seg :: rest =>
    let speaker := seg.speaker.getD "SPEAKER_??"
    let text := pyStrip seg.text
    if text = "" then
      export_lines rest
    else
      ("[" ++ format_time seg.start ++ " - " ++ format_time seg.stop ++ "] "
        ++ speaker ++ ": " ++ text) :: export_lines rest

/-- `export_transcript` body: the file content is the lines joined by
newlines (`"\n".join(lines)`). -/
def export_content (d : Document) : String :=
  String.intercalate "\n" (export_lines d.segments)

/-- The alignment-need probe of `src/core/pipeline.py` lines 262-265 (and
`src/main.py` line 201): `not result.get("segments") or
"words" not in result["segments"][0]`. -/
def needs_alignment (d : Document) : Bool :=
  match d.segments with
  | [] => true
  | s :: _ => !s.hasWords

/-- Truthiness of `options.hf_token and options.hf_token.strip()`
(`src/core/pipeline.py` line 215): the token must be present and not
whitespace-only. -/
def credPresent : Option String → Bool
  | none => false
  | some t => !(pyStrip t = "")

/-- The diarization-need probe of `src/core/pipeline.py` lines 307-311:
`do_diarize and result.get("segments") and
"speaker" not in result["segments"][0]`. -/
def needs_diarization (do_diarize : Bool) (d : Document) : Bool :=
  match d.segments with
  | [] => false
  | s :: _ => do_diarize && s.speaker.isNone

/-- Checkpoint stage labels. -/
inductive StageLabel
  | transcribed
  | aligned
  | diarized
deriving DecidableEq

/-- The three checkpoint slots of a run's `.cache` directory:
`diarized.json`, `aligned.json`, `transcribed.json` (each `some` when the
file exists and parses to the given document). -/
structure CacheState where
  diarized : Option Document
  aligned : Option Document
  transcribed : Option Document
deriving DecidableEq

/-- The cache-loading block of `src/core/pipeline.py` lines 194-212 (same
logic in `src/main.py` lines 156-168): probe `diarized.json`, then
`aligned.json`, then `transcribed.json`, keep the first that exists together
with its label; `none` if no checkpoint exists. -/
def load_most_complete (c : CacheState) : Option (Document × StageLabel) :=
  match c.diarized with
  | some d => some (d, StageLabel.diarized)
  | none =>
    match c.aligned with
    | some d => some (d, StageLabel.aligned)
    | none =>
      match c.transcribed with
      | some d => some (d, StageLabel.transcribed)
      | none => none

/-! ## Checkpoint saving as a file-operation trace

`src/core/pipeline.py` saves every checkpoint with
`with open(cache_path, "w", encoding="utf-8") as f: json.dump(result, f, ...)`
(lines 249-250, 292-293, 330-331).  We record the sequence of file-system
operations that this performs, so that claims about write atomicity
(temporary file plus rename versus in-place truncation) become statements
about the trace. -/

/-- A file-system operation performed while saving a checkpoint. -/
inductive FsOp
  | openTrunc (path : String)
  | writeChunk (path : String) (data : String)
  | closeFile (path : String)
  | renameOp (src : String) (dst : String)
deriving DecidableEq

/-- Whether an operation is a rename. -/
def FsOp.isRenameOp : FsOp → Bool
  | FsOp.renameOp _ _ => true
  | _ => false

/-- The operations performed by one checkpoint save in
`src/core/pipeline.py`: `open(path, "w")` truncates the destination file in
place, `json.dump` writes the serialized document into it, and the `with`
block closes it.  No temporary file and no rename is involved. -/
def save_checkpoint_ops (path : String) (serialized : String) : List FsOp :=
  [FsOp.openTrunc path, FsOp.writeChunk path serialized, FsOp.closeFile path]

/-- The chunks written to `path` by a trace, in order. -/
def writtenData (path : String) (ops : List FsOp) : List String :=
  ops.filterMap fun op =>
    match op with
    | FsOp.writeChunk q s => if q = path then some s else none
    | _ => none

/-- The spec's atomic-save discipline: the document is written to a
temporary location and renamed into place.  (Formalised from the spec's
words, to be compared against `save_checkpoint_ops`.) -/
def writesViaTempRename (finalPath : String) (ops : List FsOp) : Prop :=
  ∃ tmp, tmp ≠ finalPath ∧ FsOp.renameOp tmp finalPath ∈ ops

/-! ## Cache clearing (`clear_cache`, `src/core/pipeline.py` lines 357-389) -/

/-- The on-disk state of one run identity's output directory
`<output_root>/<stem>`: whether that directory exists, whether its `.cache`
subdirectory exists, and the names of the regular files directly inside it
(prepared audio `audio.*`, `transcript.txt`, ...). -/
structure DirState where
  outputDirExists : Bool
  cacheDirExists : Bool
  files : List String
deriving DecidableEq

/-- Whether a file name matches the glob `audio.*` used at line 385: the
name starts with `audio.` (and `*` matches any remainder). -/
def matchesAudioGlob (name : String) : Bool :=
  "audio.".data.isPrefixOf name.data

/-- `clear_cache`: returns `False` untouched when the output directory does
not exist; otherwise removes the `.cache` directory (if present) and every
`audio.*` file, and returns whether anything was removed. -/
def clear_cache (s : DirState) : Bool × DirState :=
  if !s.outputDirExists then
    (false, s)
  else
    let clearedCache := s.cacheDirExists
    let clearedAudio := !(s.files.filter matchesAudioGlob).isEmpty
    (clearedCache || clearedAudio,
     { s with
        cacheDirExists := false,
        files := s.files.filter fun n => !matchesAudioGlob n })

/-! ## The pipeline engine (`run_pipeline`, `src/core/pipeline.py` lines 80-354)

The model collaborators (whisperx) and the file system are abstracted:
the environment records which files exist and what the cached checkpoints
parse to, and the collaborators are oracle functions.  The run is recorded
as a trace of its observable effects: progress fractions emitted, warning
lines logged, directories created, stages executed, checkpoints saved, the
exported transcript lines, and the outcome. -/

/-- The `Options` dataclass of `src/core/options.py` (fields that influence
control flow; model/device/compute strings kept for fidelity). -/
structure Options where
  model_name : String
  device : String
  compute_type : String
  language : Option String
  batch_size : Nat
  diarize : Bool
  hf_token : Option String
  output_root : String
  ffmpeg_path : Option String

/-- Errors raised by `run_pipeline` before the model stages:
`FileNotFoundError` at line 124-125, the ffmpeg errors at lines 163-166 /
182-185, and the unsupported-format `ValueError` at line 188. -/
inductive PErr
  | inputNotFound
  | ffmpegNotFound
  | ffmpegError (stderr : String)
  | unsupportedFormat (suffix : String)
deriving DecidableEq

/-- The external world a run starts in: whether the input file exists, its
lower-cased suffix, whether the canonical `audio.mp3` already exists,
whether the ffmpeg executable is found and what its invocation returns, and
the parsed contents of the three checkpoint files. -/
structure Env where
  inputExists : Bool
  suffix : String
  audioExists : Bool
  ffmpegFound : Bool
  ffmpegExit : Except String Unit
  cache : CacheState

/-- The opaque model collaborators: `model.transcribe` (line 245),
`whisperx.align` (lines 281-288) and diarization plus
`whisperx.assign_word_speakers` (lines 321-326). -/
structure Oracles where
  transcribe : Document
  align : Document → Document
  assignSpeakers : Document → Document

/-- Observable effects of one engine invocation. -/
structure RunTrace where
  progress : List ℚ
  warnings : List String
  dirsCreated : List String
  ranTranscribe : Bool
  ranAlign : Bool
  ranDiarize : Bool
  saved : List StageLabel
  docBeforeAlign : Option Document
  docBeforeDiarize : Option Document
  transcript : Option (List String)
  outcome : Except PErr Document

/-- Stage 1 (audio preparation, lines 149-190): skip when `audio.mp3`
exists; convert `.mp4`/`.mkv` and `.wav` via ffmpeg (failing when the
executable is missing or exits non-zero), copy `.mp3` verbatim, and reject
any other suffix. -/
def audioPrep (env : Env) : Except PErr Unit :=
  if env.audioExists then
    Except.ok ()
  else if env.suffix = ".mp4" ∨ env.suffix = ".mkv" then
    if env.ffmpegFound then
      match env.ffmpegExit with
      | Except.ok _ => Except.ok ()
      | Except.error stderr => Except.error (PErr.ffmpegError stderr)
    else
      Except.error PErr.ffmpegNotFound
  else if env.suffix = ".mp3" then
    Except.ok ()
  else if env.suffix = ".wav" then
    if env.ffmpegFound then
      match env.ffmpegExit with
      | Except.ok _ => Except.ok ()
      | Except.error stderr => Except.error (PErr.ffmpegError stderr)
    else
      Except.error PErr.ffmpegNotFound
  else
    Except.error (PErr.unsupportedFormat env.suffix)

/-- The warning logged at line 217 when diarization is requested without a
usable token. -/
def diarWarning : String :=
  "[Warning] Diarization requested but HF_TOKEN not provided. Skipping speaker detection."

/-- The progress milestones of a run that reaches export, in emission
order: 0.0 (line 127), 0.05 (147), 0.10 (192), then 0.15 and 0.20 when
transcription runs (226, 239), 0.50 (259), 0.55 when alignment runs (270),
0.70 (304), 0.75 when diarization runs (316), 0.90 (337) and 1.0 (343). -/
def progressTrace (ranT ranA ranD : Bool) : List ℚ :=
  [0, 5/100, 10/100]
    ++ (if ranT then [15/100, 20/100] else [])
    ++ [50/100]
    ++ (if ranA then [55/100] else [])
    ++ [70/100]
    ++ (if ranD then [75/100] else [])
    ++ [90/100, 1]

/-- `run_pipeline`: pre-flight input check, directory setup, audio
preparation, cache loading (most complete wins), the credential check with
its single warning, then the transcribe / align / diarize stages guarded by
the structural probes, a checkpoint save after each executed stage, and
finally export.  Failures abort the run at the point the source raises. -/
def run_pipeline (env : Env) (opts : Options) (orc : Oracles) : RunTrace :=
  if !env.inputExists then
    { progress := [], warnings := [], dirsCreated := [],
      ranTranscribe := false, ranAlign := false, ranDiarize := false,
      saved := [], docBeforeAlign := none, docBeforeDiarize := none,
      transcript := none, outcome := Except.error PErr.inputNotFound }
  else
    let dirs := [opts.output_root, "output_dir", ".cache"]
    match audioPrep env with
    | Except.error e =>
      { progress := [0, 5/100], warnings := [], dirsCreated := dirs,
        ranTranscribe := false, ranAlign := false, ranDiarize := false,
        saved := [], docBeforeAlign := none, docBeforeDiarize := none,
        transcript := none, outcome := Except.error e }
    | Except.ok _ =>
      let loaded := load_most_complete env.cache
      let do_diarize := opts.diarize && credPresent opts.hf_token
      let warnings := if opts.diarize && !do_diarize then [diarWarning] else []
      let ranT := loaded.isNone
      let result1 :=
        match loaded with
        | some (d, _) => d
        | none => orc.transcribe
      let savedT : List StageLabel := if ranT then [StageLabel.transcribed] else []
      let ranA := needs_alignment result1
      let result2 := if ranA then orc.align result1 else result1
      let savedA : List StageLabel := if ranA then [StageLabel.aligned] else []
      let ranD := needs_diarization do_diarize result2
      let result3 := if ranD then orc.assignSpeakers result2 else result2
      let savedD : List StageLabel := if ranD then [StageLabel.diarized] else []
      { progress := progressTrace ranT ranA ranD,
        warnings := warnings,
        dirsCreated := dirs,
        ranTranscribe := ranT, ranAlign := ranA, ranDiarize := ranD,
        saved := savedT ++ savedA ++ savedD,
        docBeforeAlign := some result1,
        docBeforeDiarize := some result2,
        transcript := some (export_lines result3.segments),
        outcome := Except.ok result3 }

/-! ## Concrete demonstration inputs (used by witnesses) -/

/-- A segment carrying word-level timing but no speaker label. -/
def segWords : Segment :=
  { speaker := none, start := 0, stop := 5, text := "hello", hasWords := true }

/-- An aligned-shape document: its first segment has a `words` field. -/
def docAligned : Document :=
  { segments := [segWords], language := some "en" }

/-- A demonstration environment with the given cache: existing input and
prepared audio, `.mp3` suffix, working ffmpeg. -/
def envDemo (c : CacheState) : Env :=
  { inputExists := true, suffix := ".mp3", audioExists := true,
    ffmpegFound := true, ffmpegExit := Except.ok (), cache := c }

/-- Demonstration options with diarization disabled. -/
def optsDemo : Options :=
  { model_name := "large-v3", device := "cuda", compute_type := "float16",
    language := none, batch_size := 4, diarize := false, hf_token := none,
    output_root := "data", ffmpeg_path := none }

/-- Demonstration oracles. -/
def orcDemo : Oracles :=
  { transcribe := docAligned, align := fun _ => docAligned,
    assignSpeakers := fun d => d }

/-! ## Claims -/

/-- C1: `load_most_complete` probes diarized → aligned → transcribed and
returns the first present document with its label; given both a transcribed
and a diarized checkpoint, the diarized one wins; with no checkpoint it
returns `none`; and a run that completes executed the transcription stage
exactly when no checkpoint was loaded. -/
theorem claim_C1 :
    (∀ (a t : Option Document) (d : Document),
        load_most_complete ⟨some d, a, t⟩ = some (d, StageLabel.diarized)) ∧
    (∀ (t : Option Document) (d : Document),
        load_most_complete ⟨none, some d, t⟩ = some (d, StageLabel.aligned)) ∧
    (∀ d : Document,
        load_most_complete ⟨none, none, some d⟩ = some (d, StageLabel.transcribed)) ∧
    load_most_complete ⟨none, none, none⟩ = none ∧
    (∀ (env : Env) (opts : Options) (orc : Oracles) (d : Document),
        (run_pipeline env opts orc).outcome = Except.ok d →
        (run_pipeline env opts orc).ranTranscribe
          = (load_most_complete env.cache).isNone) := by
  refine ⟨fun a t d => rfl, fun t d => rfl, fun d => rfl, rfl, ?_⟩
  intro env opts orc d h
  unfold run_pipeline at h ⊢
  cases h1 : env.inputExists with
  | false => simp [h1] at h
  | true =>
    simp only [h1, Bool.not_true] at h ⊢
    cases hap : audioPrep env with
    | error e => simp [hap] at h
    | ok u => simp [hap]

/-- C1 witness: on an empty cache the completed demonstration run did
execute transcription, matching `load_most_complete` returning `none`. -/
theorem claim_C1_witness :
    (run_pipeline (envDemo ⟨none, none, none⟩) optsDemo orcDemo).ranTranscribe
      = (load_most_complete (⟨none, none, none⟩ : CacheState)).isNone :=
  claim_C1.2.2.2.2 (envDemo ⟨none, none, none⟩) optsDemo orcDemo docAligned rfl

/-- On every run that reaches stage 3, the alignment stage runs exactly
when the structural probe on the stage-2 document says it must. -/
theorem run_pipeline_align_shape (env : Env) (opts : Options) (orc : Oracles) :
    (run_pipeline env opts orc).docBeforeAlign = none ∨
    ∃ d1, (run_pipeline env opts orc).docBeforeAlign = some d1 ∧
      (run_pipeline env opts orc).ranAlign = needs_alignment d1 := by
  unfold run_pipeline
  split
  · exact Or.inl rfl
  · split
    · exact Or.inl rfl
    · exact Or.inr ⟨_, rfl, rfl⟩

/-- C2: alignment is needed exactly when the document has no segments at
all or its first segment lacks a `words` field; and the engine runs the
alignment stage exactly when this probe holds of the document entering
stage 3. -/
theorem claim_C2 (d : Document) :
    (needs_alignment d = true ↔
      d.segments = [] ∨ ∃ s l, d.segments = s :: l ∧ s.hasWords = false) ∧
    (∀ (env : Env) (opts : Options) (orc : Oracles),
      (run_pipeline env opts orc).docBeforeAlign = some d →
      (run_pipeline env opts orc).ranAlign = needs_alignment d) := by
  constructor
  · rcases d with ⟨segs, lang⟩
    cases segs with
    | nil => simp [needs_alignment]
    | cons s l => simp [needs_alignment]
  · intro env opts orc h
    rcases run_pipeline_align_shape env opts orc with hn | ⟨d1, hd1, hra⟩
    · rw [hn] at h; exact absurd h (by simp)
    · rw [hd1] at h
      obtain rfl : d1 = d := Option.some.inj h
      exact hra

/-- A transcribed-shape segment: no word-level timing yet. -/
def segNoWords : Segment :=
  { speaker := none, start := 0, stop := 5, text := "hello", hasWords := false }

/-- A transcribed-shape document. -/
def docTranscribed : Document :=
  { segments := [segNoWords], language := some "en" }

/-- C2 witness: a concrete run resuming from a transcribed checkpoint
whose first segment lacks word timing does run the alignment stage. -/
theorem claim_C2_witness :
    (run_pipeline (envDemo ⟨none, none, some docTranscribed⟩) optsDemo orcDemo).ranAlign
      = needs_alignment docTranscribed :=
  (claim_C2 docTranscribed).2 (envDemo ⟨none, none, some docTranscribed⟩)
    optsDemo orcDemo rfl

/-- C5: export emits exactly one line per segment whose trimmed text is
non-empty, in input order, formatted `[HH:MM:SS - HH:MM:SS] SPEAKER: text`
with the speaker defaulting to `SPEAKER_??`; empty-trimmed segments are
dropped entirely. -/
theorem claim_C5 (segs : List Segment) :
    export_lines segs =
      (segs.filter fun s => !(pyStrip s.text = "")).map fun s =>
        "[" ++ format_time s.start ++ " - " ++ format_time s.stop ++ "] "
          ++ s.speaker.getD "SPEAKER_??" ++ ": " ++ pyStrip s.text := by
  induction segs with
  | nil => rfl
  | cons s l ih =>
    by_cases h : pyStrip s.text = ""
    · simp [export_lines, h, ih]
    · simp [export_lines, h, ih]

/-- C8: when the input path does not exist the engine fails with the
input-not-found error before doing any stage work: no progress is emitted,
no directories are created, no checkpoint is saved, no transcript is
written, and no stage runs. -/
theorem claim_C8 (env : Env) (opts : Options) (orc : Oracles)
    (h : env.inputExists = false) :
    (run_pipeline env opts orc).outcome = Except.error PErr.inputNotFound ∧
    (run_pipeline env opts orc).progress = [] ∧
    (run_pipeline env opts orc).dirsCreated = [] ∧
    (run_pipeline env opts orc).saved = [] ∧
    (run_pipeline env opts orc).transcript = none ∧
    (run_pipeline env opts orc).ranTranscribe = false ∧
    (run_pipeline env opts orc).ranAlign = false ∧
    (run_pipeline env opts orc).ranDiarize = false := by
  simp [run_pipeline, h]

/-- A demonstration environment whose input file is missing. -/
def envMissing : Env :=
  { inputExists := false, suffix := ".mp3", audioExists := false,
    ffmpegFound := true, ffmpegExit := Except.ok (), cache := ⟨none, none, none⟩ }

/-- C8 witness at the concrete missing-input environment. -/
theorem claim_C8_witness :
    (run_pipeline envMissing optsDemo orcDemo).outcome
        = Except.error PErr.inputNotFound ∧
    (run_pipeline envMissing optsDemo orcDemo).progress = [] ∧
    (run_pipeline envMissing optsDemo orcDemo).dirsCreated = [] ∧
    (run_pipeline envMissing optsDemo orcDemo).saved = [] ∧
    (run_pipeline envMissing optsDemo orcDemo).transcript = none ∧
    (run_pipeline envMissing optsDemo orcDemo).ranTranscribe = false ∧
    (run_pipeline envMissing optsDemo orcDemo).ranAlign = false ∧
    (run_pipeline envMissing optsDemo orcDemo).ranDiarize = false :=
  claim_C8 envMissing optsDemo orcDemo rfl

/-- C6: on a run identity whose cache directory or prepared audio exists
(inside an existing output directory), the first `clear_cache` call removes
the `.cache` directory and every `audio.*` file and returns `true`, and an
immediately following second call removes nothing and returns `false`. -/
theorem claim_C6 (s : DirState) (hwf : s.outputDirExists = true)
    (h : s.cacheDirExists = true ∨ s.files.filter matchesAudioGlob ≠ []) :
    (clear_cache s).1 = true ∧
    (clear_cache s).2.cacheDirExists = false ∧
    (clear_cache s).2.files.filter matchesAudioGlob = [] ∧
    (clear_cache (clear_cache s).2).1 = false ∧
    (clear_cache (clear_cache s).2).2 = (clear_cache s).2 := by
  refine ⟨?_, ?_, ?_, ?_, ?_⟩
  · rcases h with h | h
    · simp [clear_cache, hwf, h]
    · simp [clear_cache, hwf, List.isEmpty_iff, h]
  · simp [clear_cache, hwf]
  · simp [clear_cache, hwf, List.filter_filter]
  · simp [clear_cache, hwf, List.filter_filter]
  · simp [clear_cache, hwf, List.filter_filter]

/-- A populated run directory: `.cache` present, prepared audio and an
exported transcript inside the output directory. -/
def dirDemo : DirState :=
  { outputDirExists := true, cacheDirExists := true,
    files := ["audio.mp3", "transcript.txt"] }

/-- C6 witness at the concrete populated run directory. -/
theorem claim_C6_witness :
    (clear_cache dirDemo).1 = true ∧
    (clear_cache dirDemo).2.cacheDirExists = false ∧
    (clear_cache dirDemo).2.files.filter matchesAudioGlob = [] ∧
    (clear_cache (clear_cache dirDemo).2).1 = false ∧
    (clear_cache (clear_cache dirDemo).2).2 = (clear_cache dirDemo).2 :=
  claim_C6 dirDemo rfl (Or.inl rfl)

/-- C10: `clear_cache` never removes the output directory itself and leaves
every file other than the `audio.*` ones untouched; in particular a
previously exported `transcript.txt` survives. -/
theorem claim_C10 (s : DirState) :
    (clear_cache s).2.outputDirExists = s.outputDirExists ∧
    (clear_cache s).2.files.filter (fun n => !matchesAudioGlob n)
        = s.files.filter (fun n => !matchesAudioGlob n) ∧
    ("transcript.txt" ∈ s.files → "transcript.txt" ∈ (clear_cache s).2.files) := by
  cases hout : s.outputDirExists with
  | false => simp [clear_cache, hout]
  | true =>
    refine ⟨by simp [clear_cache, hout], by simp [clear_cache, hout, List.filter_filter], ?_⟩
    intro hmem
    simp only [clear_cache, hout, Bool.not_true, Bool.false_eq_true, if_false]
    exact List.mem_filter.2 ⟨hmem, by decide⟩

/-- C10 witness: the exported transcript survives clearing the concrete
populated run directory. -/
theorem claim_C10_witness :
    "transcript.txt" ∈ (clear_cache dirDemo).2.files :=
  (claim_C10 dirDemo).2.2 (by decide)

/-- C3 counterexample: a checkpoint save performs no rename at all — the
write trace of saving `transcribed.json` contains no temporary-file rename,
refuting the claimed write-to-temp-and-rename discipline. -/
theorem claim_C3_counterexample :
    ¬ writesViaTempRename ".cache/transcribed.json"
        (save_checkpoint_ops ".cache/transcribed.json" "serialized-doc") := by
  rintro ⟨tmp, hne, hmem⟩
  simp [save_checkpoint_ops] at hmem

/-- C3 (amended): a checkpoint save is a whole-document in-place rewrite —
the data written to the checkpoint path is exactly the full serialized
document — but it begins by truncating the destination file in place and
performs no rename, so the write is not atomic with respect to a concurrent
reader. -/
theorem claim_C3 (path serialized : String) :
    writtenData path (save_checkpoint_ops path serialized) = [serialized] ∧
    (save_checkpoint_ops path serialized).head? = some (FsOp.openTrunc path) ∧
    ((save_checkpoint_ops path serialized).all fun op => !op.isRenameOp) = true := by
  refine ⟨?_, rfl, ?_⟩ <;> simp [writtenData, save_checkpoint_ops, FsOp.isRenameOp]

/-- Any progress milestone sequence the engine can emit on a run that
reaches export is monotone and bounded, whichever stages executed. -/
theorem progressTrace_mono (t a d : Bool) :
    List.Chain' (· ≤ ·) (progressTrace t a d) ∧
      ∀ q ∈ progressTrace t a d, 0 ≤ q ∧ q ≤ 1 := by
  cases t <;> cases a <;> cases d <;>
    refine ⟨?_, ?_⟩ <;>
    norm_num [progressTrace, List.chain'_cons, List.forall_mem_cons]

/-- Case analysis on a run: either it aborts (no stage-3 document, no
transcript, an error outcome), or it reaches export, in which case the
warning list, the diarization decision, the outcome and the transcript are
determined by the pre-diarization document. -/
theorem run_pipeline_cases (env : Env) (opts : Options) (orc : Oracles) :
    ((run_pipeline env opts orc).docBeforeDiarize = none ∧
      (run_pipeline env opts orc).transcript = none ∧
      ∃ e, (run_pipeline env opts orc).outcome = Except.error e) ∨
    ∃ d2,
      (run_pipeline env opts orc).docBeforeDiarize = some d2 ∧
      (run_pipeline env opts orc).warnings
        = (if opts.diarize && !(opts.diarize && credPresent opts.hf_token)
            then [diarWarning] else []) ∧
      (run_pipeline env opts orc).ranDiarize
        = needs_diarization (opts.diarize && credPresent opts.hf_token) d2 ∧
      (run_pipeline env opts orc).outcome
        = Except.ok (if needs_diarization (opts.diarize && credPresent opts.hf_token) d2
            then orc.assignSpeakers d2 else d2) ∧
      (run_pipeline env opts orc).transcript
        = some (export_lines
            (if needs_diarization (opts.diarize && credPresent opts.hf_token) d2
              then orc.assignSpeakers d2 else d2).segments) := by
  unfold run_pipeline
  split
  · exact Or.inl ⟨rfl, rfl, PErr.inputNotFound, rfl⟩
  · split
    · exact Or.inl ⟨rfl, rfl, _, rfl⟩
    · exact Or.inr ⟨_, rfl, rfl, rfl, rfl, rfl⟩

/-- Diarization is never needed when `do_diarize` is off. -/
theorem needs_diarization_off (d : Document) : needs_diarization false d = false := by
  rcases d with ⟨segs, lang⟩
  cases segs <;> simp [needs_diarization]

/-- C7: every progress sequence the engine emits — on aborted runs as well
as completed ones, whichever stages ran — is monotonically non-decreasing
and stays inside `[0, 1]`. -/
theorem claim_C7 (env : Env) (opts : Options) (orc : Oracles) :
    List.Chain' (· ≤ ·) (run_pipeline env opts orc).progress ∧
      ∀ q ∈ (run_pipeline env opts orc).progress, 0 ≤ q ∧ q ≤ 1 := by
  unfold run_pipeline
  split
  · exact ⟨by simp, by simp⟩
  · split
    · refine ⟨?_, ?_⟩
      · show List.Chain' (· ≤ ·) [0, 5/100]
        norm_num [List.chain'_cons]
      · show ∀ q ∈ ([0, 5/100] : List ℚ), 0 ≤ q ∧ q ≤ 1
        norm_num [List.forall_mem_cons]
    · exact progressTrace_mono _ _ _

/-- C7 witness: the first emitted fraction of a concrete completed run is
within bounds. -/
theorem claim_C7_witness : (0 : ℚ) ≤ 0 ∧ (0 : ℚ) ≤ 1 :=
  (claim_C7 (envDemo ⟨none, none, none⟩) optsDemo orcDemo).2 0
    (List.mem_cons_self 0 _)

/-- C9: whenever the document entering the diarization stage has an empty
segment list, diarization is not run — regardless of the diarization
request and credential — and the run proceeds directly to export, emitting
an empty transcript. -/
theorem claim_C9 (env : Env) (opts : Options) (orc : Oracles) (d : Document)
    (h : (run_pipeline env opts orc).docBeforeDiarize = some d)
    (hseg : d.segments = []) :
    (run_pipeline env opts orc).ranDiarize = false ∧
    (run_pipeline env opts orc).outcome = Except.ok d ∧
    (run_pipeline env opts orc).transcript = some [] := by
  rcases run_pipeline_cases env opts orc with ⟨hn, -, -⟩ | ⟨d2, hd2, -, hrd, hout, htr⟩
  · rw [hn] at h; exact absurd h (by simp)
  · rw [hd2] at h
    obtain rfl : d2 = d := Option.some.inj h
    have hnd : needs_diarization (opts.diarize && credPresent opts.hf_token) d2 = false := by
      simp [needs_diarization, hseg]
    have hif : (if needs_diarization (opts.diarize && credPresent opts.hf_token) d2
        then orc.assignSpeakers d2 else d2) = d2 := by
      rw [hnd]; simp
    rw [hif] at hout htr
    exact ⟨hrd.trans hnd, hout, by rw [htr, hseg]; rfl⟩

/-- An aligned-shape document with an empty segment list. -/
def docEmpty : Document := { segments := [], language := some "en" }

/-- Oracles whose alignment collaborator returns the empty document. -/
def orcEmpty : Oracles :=
  { transcribe := docEmpty, align := fun _ => docEmpty,
    assignSpeakers := fun d => d }

/-- Options requesting diarization with a valid token. -/
def optsToken : Options :=
  { model_name := "large-v3", device := "cuda", compute_type := "float16",
    language := none, batch_size := 4, diarize := true,
    hf_token := some "hf_valid_token", output_root := "data",
    ffmpeg_path := none }

/-- C9 witness: a concrete run with diarization requested, a valid token
and an empty-segment document entering stage 4 skips diarization. -/
theorem claim_C9_witness :
    (run_pipeline (envDemo ⟨none, none, none⟩) optsToken orcEmpty).ranDiarize = false ∧
    (run_pipeline (envDemo ⟨none, none, none⟩) optsToken orcEmpty).outcome
        = Except.ok docEmpty ∧
    (run_pipeline (envDemo ⟨none, none, none⟩) optsToken orcEmpty).transcript
        = some [] :=
  claim_C9 (envDemo ⟨none, none, none⟩) optsToken orcEmpty docEmpty rfl rfl

/-- C4 (amended): on every run with diarization requested but the
credential absent, empty or whitespace-only that completes, exactly one
warning is emitted, the diarization stage is skipped, and the run proceeds
through export with the pre-diarization document unchanged — no speaker
labels are added by this run. -/
theorem claim_C4 (env : Env) (opts : Options) (orc : Oracles) (d : Document)
    (h1 : opts.diarize = true) (h2 : credPresent opts.hf_token = false)
    (h3 : (run_pipeline env opts orc).outcome = Except.ok d) :
    (run_pipeline env opts orc).warnings = [diarWarning] ∧
    (run_pipeline env opts orc).ranDiarize = false ∧
    (run_pipeline env opts orc).docBeforeDiarize = some d ∧
    (run_pipeline env opts orc).transcript = some (export_lines d.segments) := by
  rcases run_pipeline_cases env opts orc with ⟨-, -, e, he⟩ | ⟨d2, hd2, hw, hrd, hout, htr⟩
  · rw [he] at h3; exact absurd h3 (by simp)
  · rw [h1, h2] at hw hrd hout htr
    simp only [Bool.and_false, needs_diarization_off, Bool.not_false, Bool.and_true,
      if_true, Bool.false_eq_true, if_false] at hw hrd hout htr
    obtain rfl : d2 = d := Except.ok.inj (hout.symm.trans h3)
    exact ⟨hw, hrd, hd2, htr⟩

/-- A segment carrying both word-level timing and a speaker label. -/
def segSpoken : Segment :=
  { speaker := some "SPEAKER_00", start := 0, stop := 5, text := "hello",
    hasWords := true }

/-- A diarized-shape document: its first segment has a speaker label. -/
def docDiarized : Document :=
  { segments := [segSpoken], language := some "en" }

/-- Options requesting diarization with no credential at all. -/
def optsNoToken : Options :=
  { model_name := "large-v3", device := "cuda", compute_type := "float16",
    language := none, batch_size := 4, diarize := true, hf_token := none,
    output_root := "data", ffmpeg_path := none }

/-- C4 counterexample: a run with diarization requested and no credential
that resumes from a diarized checkpoint completes with the single warning
and a skipped diarization stage — but its exported transcript does carry a
speaker label (`SPEAKER_00`), refuting the claim that every such run
produces a transcript with no speaker labels. -/
theorem claim_C4_counterexample :
    (run_pipeline (envDemo ⟨some docDiarized, none, none⟩) optsNoToken orcDemo).outcome
        = Except.ok docDiarized ∧
    (run_pipeline (envDemo ⟨some docDiarized, none, none⟩) optsNoToken orcDemo).warnings
        = [diarWarning] ∧
    (run_pipeline (envDemo ⟨some docDiarized, none, none⟩) optsNoToken orcDemo).ranDiarize
        = false ∧
    (run_pipeline (envDemo ⟨some docDiarized, none, none⟩) optsNoToken orcDemo).transcript
        = some ["[00:00:00 - 00:00:05] SPEAKER_00: hello"] ∧
    (docDiarized.segments.all fun s => s.speaker.isNone) = false :=
  ⟨rfl, rfl, rfl, rfl, rfl⟩

/-- Options requesting diarization with a whitespace-only credential. -/
def optsBlankToken : Options :=
  { model_name := "large-v3", device := "cuda", compute_type := "float16",
    language := none, batch_size := 4, diarize := true, hf_token := some "   ",
    output_root := "data", ffmpeg_path := none }

/-- C4 witness: a concrete completed run resuming from an aligned
checkpoint with a whitespace-only token gets the single warning, a skipped
diarization stage, and the aligned document exported unchanged. -/
theorem claim_C4_witness :
    (run_pipeline (envDemo ⟨none, some docAligned, none⟩) optsBlankToken orcDemo).warnings
        = [diarWarning] ∧
    (run_pipeline (envDemo ⟨none, some docAligned, none⟩) optsBlankToken orcDemo).ranDiarize
        = false ∧
    (run_pipeline (envDemo ⟨none, some docAligned, none⟩) optsBlankToken orcDemo).docBeforeDiarize
        = some docAligned ∧
    (run_pipeline (envDemo ⟨none, some docAligned, none⟩) optsBlankToken orcDemo).transcript
        = some (export_lines docAligned.segments) :=
  claim_C4 (envDemo ⟨none, some docAligned, none⟩) optsBlankToken orcDemo
    docAligned rfl rfl rfl

end WhisperX
